import Mathlib

/-!
Verification development for the MASCHINETTE userspace HID→MIDI/OSC driver.

The definitions below are a shallow embedding of the Rust sources under
`crates/driver/src/`:
  * `input.rs`            — `parse_hid_report`
  * `modes/custom_midi.rs` — `CustomMidiMode` (button mapping mode)
  * `modes/play_mode.rs`  — `PlayMode` (looper)
  * `main.rs`             — the inline button/pad handling of `main_loop`

Machine integers are modelled as `Nat` with explicit masking/`% 2^w` where
the Rust code relies on wrapping; `std::time::Instant` / `Duration` are
modelled as milliseconds (`Nat`), matching the sole granularity the code
observes (`as_millis`).  Fallible operations (slice indexing, `unwrap`)
return `Option`, with `none` standing for a Rust panic.

Types owned by the (not included) `maschine_library` crate and by
`settings.rs` — `Buttons`, `PadEventType`, `Brightness`, `PadColors`,
`Lights`, `Settings` — are modelled from the spec, as noted on each.
-/

namespace Maschinette

/-- Modelled from the spec: `maschine_library::lights::Brightness`
(values `Off`, `Dim`, `Normal`, `Bright` are the ones the driver sources
use; `Bright` is "maximum brightness"). -/
inductive Brightness where
  | Off | Dim | Normal | Bright
deriving DecidableEq, Repr

/-- Modelled from the spec: `maschine_library::lights::PadColors`
(the driver sources use `Off`, `White`, `Orange`, `Blue`). -/
inductive PadColors where
  | Off | White | Orange | Blue
deriving DecidableEq, Repr

/-- Modelled from the spec: `maschine_library::controls::Buttons` — a
41-variant hardware-button enum.  Only the variants the driver sources
name, plus a few generic mappable ones standing for the rest, are listed;
the claims quantify over buttons generically or use the named transport
buttons. -/
inductive Buttons where
  | Rec | Play | Stop | Restart | Erase
  | EncoderPress | EncoderTouch
  | Events | Volume | Swing
deriving DecidableEq, Repr, Fintype

/-- Modelled from the spec: `maschine_library::controls::PadEventType`, the
pad-report "kind" decoded from the high nibble of the second record byte
via `num::FromPrimitive::from_u8`.  The driver matches on the five variants
below; the concrete discriminants are not in `src/` and are modelled as
`0x10`, `0x20`, `0x30`, `0x40`, `0x50` — what the claims use is only that
the map is partial (some nibbles are unmapped) and that press/release
kinds exist. -/
inductive PadEventType where
  | NoteOn | NoteOff | Aftertouch | PressOn | PressOff
deriving DecidableEq, Repr

/-- Modelled from the spec: the `from_u8` instance of `PadEventType` over
the kind nibble (see `PadEventType`). -/
def padEventFromNibble (n : Nat) : Option PadEventType :=
  if n = 0x10 then some .NoteOn
  else if n = 0x20 then some .NoteOff
  else if n = 0x30 then some .Aftertouch
  else if n = 0x40 then some .PressOn
  else if n = 0x50 then some .PressOff
  else none

/-- `input.rs::HardwareEvent`. -/
inductive HardwareEvent where
  | Button (index : Buttons) (pressed : Bool)
  | Pad (index : Nat) (event_type : PadEventType) (value : Nat)
  | Encoder (value : Nat)
  | Slider (value : Nat)
deriving DecidableEq, Repr

/-- The MIDI messages the driver builds (`midly::MidiMessage`), all sent on
channel 0. -/
inductive MidiMessage where
  | NoteOn (key vel : Nat)
  | NoteOff (key vel : Nat)
  | Controller (cc val : Nat)
deriving DecidableEq, Repr

/-- An outbound OSC message: address and single integer argument. -/
abbrev OscMsg := String × Int

/-- `settings.rs::ButtonMode` (modelled from the spec: default is
`Trigger` for unconfigured buttons). -/
inductive ButtonMode where
  | Trigger | Toggle
deriving DecidableEq, Repr

/-- `settings.rs::ButtonConfig` entries of `button_configs` (modelled from
the spec: `{mode, group_id?, cc?}`). -/
structure ButtonConfig where
  mode : ButtonMode
  group_id : Option Nat
  cc : Option Nat
deriving DecidableEq, Repr

/-- Modelled from the spec: the externally validated `Settings` surface the
core reads — a button-name → config map (a `HashMap`, modelled as an
association list in its iteration order) and the fixed 16-entry
pad-index → MIDI-note table. -/
structure Settings where
  notemaps : List Nat
  button_configs : List (String × ButtonConfig)
deriving DecidableEq, Repr

/-- `HashMap::get` on `button_configs` (exact key match). -/
def cfgLookup (s : Settings) (name : String) : Option ButtonConfig :=
  (s.button_configs.find? (fun p => p.1 == name)).map (·.2)

/-- Modelled from the spec: the light framebuffer
(`maschine_library::lights::Lights`) — per-button brightness, per-pad
colour/brightness, and the 25-segment slider strip, with getters/setters. -/
structure Lights where
  button : Buttons → Brightness
  pad : Nat → PadColors × Brightness
  slider : Nat → Brightness

/-- Pointwise function update (models one `set_*` write into the
framebuffer). -/
def updFn {α β : Type} [DecidableEq α] (f : α → β) (a : α) (b : β) : α → β :=
  fun x => if x = a then b else f x

def Lights.setButton (l : Lights) (b : Buttons) (v : Brightness) : Lights :=
  { l with button := updFn l.button b v }

def Lights.setPad (l : Lights) (i : Nat) (c : PadColors) (v : Brightness) : Lights :=
  { l with pad := updFn l.pad i (c, v) }

def Lights.setSlider (l : Lights) (i : Nat) (v : Brightness) : Lights :=
  { l with slider := updFn l.slider i v }

/-- A fresh framebuffer, everything off. -/
def Lights.init : Lights :=
  { button := fun _ => .Off, pad := fun _ => (.Off, .Off), slider := fun _ => .Off }

/-! ## Button names

`main.rs` / `modes/custom_midi.rs` identify buttons by their Rust `Debug`
names (`format!("{:?}", button)`) and resolve names back to buttons by a
linear scan over indices 0..41 comparing case-insensitively
(`eq_ignore_ascii_case`). -/

/-- The `Debug` name of each (modelled) button variant. -/
def buttonName : Buttons → String
  | .Rec => "Rec" | .Play => "Play" | .Stop => "Stop" | .Restart => "Restart"
  | .Erase => "Erase" | .EncoderPress => "EncoderPress"
  | .EncoderTouch => "EncoderTouch" | .Events => "Events"
  | .Volume => "Volume" | .Swing => "Swing"

/-- ASCII lowercasing of a character (models `char::to_ascii_lowercase`). -/
def asciiLowerChar (c : Char) : Char :=
  if 65 ≤ c.toNat ∧ c.toNat ≤ 90 then Char.ofNat (c.toNat + 32) else c

/-- ASCII lowercasing of a string (models `str::to_lowercase` /
`eq_ignore_ascii_case` on the ASCII button names). -/
def asciiLower (s : String) : String :=
  String.mk (s.data.map asciiLowerChar)

/-- The modelled buttons in index order (the domain of the
`FromPrimitive::from_usize(0..41)` scan). -/
def buttonList : List Buttons :=
  [.Rec, .Play, .Stop, .Restart, .Erase, .EncoderPress, .EncoderTouch,
   .Events, .Volume, .Swing]

/-- `button_from_name` (identical helper in `main.rs` and
`modes/custom_midi.rs`): first button whose `Debug` name matches the given
name ignoring ASCII case. -/
def buttonFromName (name : String) : Option Buttons :=
  buttonList.find? (fun b => asciiLower (buttonName b) == asciiLower name)

/-- Modelled from the spec: `FromPrimitive::from_usize` over button
indices (the true index assignment is in `maschine_library`; what the
decoder claims use is only that it is partial and skips nothing but
unmapped indices). -/
def buttonFromUsize (i : Nat) : Option Buttons := buttonList.get? i

/-! ## HID report decoder (`input.rs::parse_hid_report`) -/

/-- The pad-record loop of `parse_hid_report` (`buf[0] == 0x02` branch):
steps in 3-byte records from offset 1, stops when fewer than 3 bytes
remain (`i + 2 >= buf.len()`), stops at the first all-zero record after
the first one, and silently drops records whose kind nibble has no
`PadEventType` (`if let Some`). -/
def parsePadRecords : List Nat → Bool → List HardwareEvent
  | b0 :: b1 :: b2 :: rest, isFirst =>
    let idx := b0
    let evt := b1 &&& 0xf0
    let val := ((b1 &&& 0x0f) <<< 8) + b2
    if ¬ isFirst ∧ idx = 0 ∧ evt = 0 ∧ val = 0 then []
    else
      match padEventFromNibble evt with
      | some pe => HardwareEvent.Pad idx pe val :: parsePadRecords rest false
      | none => parsePadRecords rest false
  | _, _ => []

/-- The button-bitmap loop of `parse_hid_report` (`buf[0] == 0x01`
branch): bytes 1–6, bit `j` of byte `i+1` is button index `i*8+j`;
indices with no `Buttons` variant are skipped and `EncoderTouch` is
always suppressed.  (The Rust loop `break`s when byte `i+1` is out of
range; since a missing byte implies all later bytes are missing too,
filtering is equivalent.) -/
def parseButtonBits (buf : List Nat) : List HardwareEvent :=
  ((List.range 6).filter (fun i => i + 1 < buf.length)).flatMap (fun i =>
    (List.range 8).filterMap (fun j =>
      let idx := i * 8 + j
      match buttonFromUsize idx with
      | some button =>
        if button = Buttons.EncoderTouch then none
        else some (HardwareEvent.Button button (decide (0 < buf.getD (i+1) 0 &&& (1 <<< j))))
      | none => none))

/-- `input.rs::parse_hid_report`: raw bytes → semantic hardware events.
Unknown first bytes yield `[]`. -/
def parseHidReport (buf : List Nat) : List HardwareEvent :=
  match buf with
  | [] => []
  | b0 :: _ =>
    if b0 = 0x01 then
      parseButtonBits buf
        ++ (if buf.length > 7 then [HardwareEvent.Encoder (buf.getD 7 0)] else [])
        ++ (if buf.length > 10 then [HardwareEvent.Slider (buf.getD 10 0)] else [])
    else if b0 = 0x02 then
      parsePadRecords (buf.drop 1) true
    else []

/-! ## Button-mapping mode (`modes/custom_midi.rs`), shared pure pieces -/

/-- Session state of `CustomMidiMode` (`toggle_states` is a `HashMap`
defaulting to `false` via `entry().or_default()` / `unwrap_or(&false)`,
modelled as a total function). -/
structure CMState where
  toggle_states : Buttons → Bool
  last_encoder_val : Nat
  encoder_is_pressed : Bool

/-- Fresh `CustomMidiMode` session state (`CustomMidiMode::new`). -/
def CMState.init : CMState :=
  { toggle_states := fun _ => false, last_encoder_val := 0, encoder_is_pressed := false }

/-- `val as i8 - last as i8` of `process_encoder`, under two's-complement
(release wrapping) semantics: the signed-8-bit reading of
`(val - last) mod 256`. -/
def encoderDiff (val last : Nat) : Int :=
  let m := (val % 256 + 256 - last % 256) % 256
  if m < 128 then (m : Int) else (m : Int) - 256

/-- The direction rule of `process_encoder` (`modes/custom_midi.rs` line
171, identical inline in `main.rs`): `+1` if `0 < diff < 8` or
`diff < -8`, else `-1`. -/
def encoderDirection (val last : Nat) : Int :=
  let diff := encoderDiff val last
  if (0 < diff ∧ diff < 8) ∨ diff < -8 then 1 else -1

/-- `CustomMidiMode::process_encoder`: a zero sample is "no sample"; a
nonzero, changed sample emits the direction over OSC; a nonzero sample is
stored. -/
def processEncoder (st : CMState) (val : Nat) : CMState × List OscMsg :=
  let osc := if val ≠ 0 ∧ val ≠ st.last_encoder_val then
      [(("/maschine/encoder" : String), encoderDirection val st.last_encoder_val)] else []
  let st' := if val ≠ 0 then { st with last_encoder_val := val } else st
  (st', osc)

/-- The slider segment computation `(val as i32 - 1 + 5) * 25 / 200 - 1`
(`modes/custom_midi.rs` line 183; numerator is nonnegative for any `u8`,
so the Rust truncating division agrees with any integer-division
convention). -/
def sliderCnt (val : Nat) : Int := ((val : Int) - 1 + 5) * 25 / 200 - 1

/-- The per-segment brightness of the slider bar:
`match cnt - i { 0 => Normal, 1..=25 => Dim, _ => Off }`. -/
def sliderSegBrightness (cnt : Int) (i : Int) : Brightness :=
  if cnt - i = 0 then .Normal
  else if 1 ≤ cnt - i ∧ cnt - i ≤ 25 then .Dim
  else .Off

/-- `CustomMidiMode::process_slider` (identical inline in `main.rs`):
value 0 is a no-op; otherwise emit the raw value over OSC and render the
25-segment bar. -/
def processSlider (val : Nat) (l : Lights) : Lights × List OscMsg × Bool :=
  if val ≠ 0 then
    let osc := [(("/maschine/slider" : String), (val : Int))]
    let cnt := sliderCnt val
    let l' := (List.range 25).foldl
      (fun acc i => acc.setSlider i (sliderSegBrightness cnt (i : Int))) l
    (l', osc, true)
  else (l, [], false)

/-- Pad velocity in the button-mapping mode (`modes/custom_midi.rs` lines
148–149, identical inline in `main.rs`): `(value >> 5) as u8`, clamped up
to 1 when `value > 0`. -/
def customMidiVelocity (value : Nat) : Nat :=
  let v := (value >>> 5) % 256
  if value > 0 ∧ v = 0 then 1 else v

/-- Pad velocity in the looper (`modes/play_mode.rs` line 364):
`(value >> 5) as u8`, with no clamp. -/
def playModeVelocity (value : Nat) : Nat := (value >>> 5) % 256

/-! ## Button handling (`CustomMidiMode::process_button`, and the inline
copy in `main.rs::main_loop`) -/

/-- The exclusive-group table entry for group `g`
(`CustomMidiMode::new` / the identical pre-computation at the top of
`main_loop`): the names of Toggle-configured buttons whose `group_id` is
`g`, in configuration-iteration order. -/
def groupMembers (s : Settings) (g : Nat) : List String :=
  s.button_configs.filterMap (fun p =>
    if p.2.mode = ButtonMode.Toggle ∧ p.2.group_id = some g then some p.1 else none)

/-- The cascading mutual-exclusion loop (`for other_name in member_names`):
every group member other than the pressed button has its toggle state
forced `false`, its light forced off, and an OSC `0` emitted; names that
resolve to no button are skipped.  Returns the updated state, lights, the
emitted OSC messages in order, and whether any light changed. -/
def forceSiblings (button_name : String) (names : List String)
    (st : CMState) (l : Lights) : CMState × Lights × List OscMsg × Bool :=
  match names with
  | [] => (st, l, [], false)
  | n :: rest =>
    if n ≠ button_name then
      match buttonFromName n with
      | some ob =>
        let st' := { st with toggle_states := updFn st.toggle_states ob false }
        let l' := l.setButton ob Brightness.Off
        let r := forceSiblings button_name rest st' l'
        (r.1, r.2.1, ("/maschine/" ++ asciiLower n, (0 : Int)) :: r.2.2.1, true)
      | none => forceSiblings button_name rest st l
    else forceSiblings button_name rest st l

/-- The common tail of the button handlers (both sources, lines 113–131 of
`modes/custom_midi.rs` and 240–264 of `main.rs`): emit the button's own
OSC message after any forced-sibling ones, emit a CC if configured and an
OSC message was sent, and apply the target brightness when the button has
a light. -/
def assembleButton (hasLight : Buttons → Bool) (config : Option ButtonConfig)
    (button : Buttons) (button_name : String) (l : Lights)
    (forcedOsc : List OscMsg) (changed : Bool) (should_send_osc : Bool)
    (osc_value : Int) (target : Option Brightness) :
    Lights × List OscMsg × List MidiMessage × Bool :=
  let osc := forcedOsc ++
    (if should_send_osc then [("/maschine/" ++ asciiLower button_name, osc_value)] else [])
  let midi :=
    match config.bind (·.cc) with
    | some cc_num =>
      if should_send_osc then
        [MidiMessage.Controller cc_num (if osc_value = 1 then 127 else 0)]
      else []
    | none => []
  match target with
  | some b =>
    if hasLight button then (l.setButton button b, osc, midi, true)
    else (l, osc, midi, changed)
  | none => (l, osc, midi, changed)

/-- The intermediate values of the Toggle press branch of the button
handlers (`modes/custom_midi.rs` lines 80–105 = `main.rs` lines 201–232,
which are identical). -/
structure TogglePressOut where
  st : CMState
  l : Lights
  forcedOsc : List OscMsg
  changed : Bool
  should_send_osc : Bool
  osc_value : Int
  target : Option Brightness

/-- The Toggle press branch (guarded by
`is_pressed && lights.get_button(button) != Brightness::Bright`): flip the
stored toggle, cascade the exclusive group when flipping on, and set the
press target light to `Bright`. -/
def togglePress (s : Settings) (st : CMState) (l : Lights) (button : Buttons)
    (button_name : String) (config : Option ButtonConfig) (is_pressed : Bool) :
    TogglePressOut :=
  if is_pressed ∧ l.button button ≠ Brightness.Bright then
    let new_toggle_state := ! st.toggle_states button
    let r :=
      if new_toggle_state then
        match config.bind (·.group_id) with
        | some gid => forceSiblings button_name (groupMembers s gid) st l
        | none => (st, l, [], false)
      else (st, l, [], false)
    let stI := { r.1 with toggle_states := updFn r.1.toggle_states button new_toggle_state }
    ⟨stI, r.2.1, r.2.2.1, r.2.2.2, true,
     (if new_toggle_state then (1 : Int) else 0), some Brightness.Bright⟩
  else ⟨st, l, [], false, false, 0, none⟩

/-- `CustomMidiMode::process_button` (`modes/custom_midi.rs` lines
52–132).  `hasLight` models `Lights::button_has_light`.  Returns the new
state, lights, OSC and MIDI emissions, and the changed-lights flag. -/
def processButton (hasLight : Buttons → Bool) (s : Settings) (st : CMState)
    (l : Lights) (button : Buttons) (is_pressed : Bool) :
    CMState × Lights × List OscMsg × List MidiMessage × Bool :=
  if button = Buttons.EncoderPress then
    if is_pressed ≠ st.encoder_is_pressed then
      ({ st with encoder_is_pressed := is_pressed }, l,
       [("/maschine/encoderPress", if is_pressed then (1 : Int) else 0)], [], false)
    else (st, l, [], [], false)
  else
    let button_name := buttonName button
    let config := cfgLookup s button_name
    let mode := (config.map (·.mode)).getD ButtonMode.Trigger
    let current_light_state := l.button button ≠ Brightness.Off
    match mode with
    | .Trigger =>
      if is_pressed ≠ current_light_state then
        (st, assembleButton hasLight config button button_name l [] false true
          (if is_pressed then 1 else 0)
          (some (if is_pressed then Brightness.Normal else Brightness.Off)))
      else
        (st, assembleButton hasLight config button button_name l [] false false 0 none)
    | .Toggle =>
      let r := togglePress s st l button button_name config is_pressed
      let target :=
        if ¬ is_pressed ∧ current_light_state then
          some (if r.st.toggle_states button then Brightness.Bright else Brightness.Off)
        else r.target
      (r.st, assembleButton hasLight config button button_name r.l r.forcedOsc r.changed
        r.should_send_osc r.osc_value target)

/-- The inline button handling of `main.rs::main_loop` (lines 169–264).
It is the same logic as `CustomMidiMode::process_button` except on a
Toggle release, where line 235 restores a still-on toggle to `Dim`
instead of `Bright`. -/
def mainLoopProcessButton (hasLight : Buttons → Bool) (s : Settings) (st : CMState)
    (l : Lights) (button : Buttons) (is_pressed : Bool) :
    CMState × Lights × List OscMsg × List MidiMessage × Bool :=
  if button = Buttons.EncoderPress then
    if is_pressed ≠ st.encoder_is_pressed then
      ({ st with encoder_is_pressed := is_pressed }, l,
       [("/maschine/encoderPress", if is_pressed then (1 : Int) else 0)], [], false)
    else (st, l, [], [], false)
  else
    let button_name := buttonName button
    let config := cfgLookup s button_name
    let mode := (config.map (·.mode)).getD ButtonMode.Trigger
    let current_light_state := l.button button ≠ Brightness.Off
    match mode with
    | .Trigger =>
      if is_pressed ≠ current_light_state then
        (st, assembleButton hasLight config button button_name l [] false true
          (if is_pressed then 1 else 0)
          (some (if is_pressed then Brightness.Normal else Brightness.Off)))
      else
        (st, assembleButton hasLight config button button_name l [] false false 0 none)
    | .Toggle =>
      let r := togglePress s st l button button_name config is_pressed
      let target :=
        if ¬ is_pressed ∧ current_light_state then
          some (if r.st.toggle_states button then Brightness.Dim else Brightness.Off)
        else r.target
      (r.st, assembleButton hasLight config button button_name r.l r.forcedOsc r.changed
        r.should_send_osc r.osc_value target)

/-- `CustomMidiMode::process_pad` (`modes/custom_midi.rs` lines 134–166):
pad light written only on change, then the note lookup
(`ctx.settings.notemaps[index]`, `none` = index out of bounds panics) and
the Note-On/Off emission with the clamped velocity. -/
def processPad (s : Settings) (l : Lights) (index : Nat)
    (event_type : PadEventType) (value : Nat) :
    Option (Lights × List MidiMessage × Bool) :=
  let prev_b := (l.pad index).2
  let b :=
    if (event_type = .NoteOn ∨ event_type = .PressOn ∨ event_type = .Aftertouch)
        ∧ value > 0 then Brightness.Normal else Brightness.Off
  let (l1, ch1) := if prev_b ≠ b then (l.setPad index PadColors.Blue b, true) else (l, false)
  match s.notemaps.get? index with
  | none => none
  | some note =>
    let velocity := customMidiVelocity value
    let midi :=
      match event_type with
      | .NoteOn | .PressOn => [MidiMessage.NoteOn note velocity]
      | .NoteOff | .PressOff => [MidiMessage.NoteOff note velocity]
      | _ => []
    some (l1, midi, ch1)

/-- One iteration of the pad-record loop of `main.rs::main_loop` (lines
308–339) on the record `[idx, b1, b2]`: unlike the decoder pipeline it
`unwrap`s the kind nibble (`none` = panic on an unmapped nibble) and then
indexes `settings.notemaps` (`none` = out-of-bounds panic). -/
def mainLoopPadRecord (s : Settings) (l : Lights) (idx b1 b2 : Nat) :
    Option (Lights × List MidiMessage × Bool) :=
  let evt := b1 &&& 0xf0
  let val := ((b1 &&& 0x0f) <<< 8) + b2
  match padEventFromNibble evt with
  | none => none
  | some pad_evt =>
    let prev_b := (l.pad idx).2
    let b :=
      if (pad_evt = .NoteOn ∨ pad_evt = .PressOn ∨ pad_evt = .Aftertouch)
          ∧ val > 0 then Brightness.Normal else Brightness.Off
    let (l1, ch1) := if prev_b ≠ b then (l.setPad idx PadColors.Blue b, true) else (l, false)
    match s.notemaps.get? idx with
    | none => none
    | some note =>
      let velocity := customMidiVelocity val
      let midi :=
        match pad_evt with
        | .NoteOn | .PressOn => [MidiMessage.NoteOn note velocity]
        | .NoteOff | .PressOff => [MidiMessage.NoteOff note velocity]
        | _ => []
      some (l1, midi, ch1)

/-! ## Looper mode (`modes/play_mode.rs`) -/

/-- `play_mode.rs::SeqEvent`; `offset` is a `Duration` in milliseconds. -/
structure SeqEvent where
  offset : Nat
  note : Nat
  velocity : Nat
  is_note_on : Bool
deriving DecidableEq, Repr

/-- `play_mode.rs::PlayMode` state.  `Instant`s are monotonic-clock
milliseconds; the 16-element `user_holding`/`seq_holding` arrays are
modelled as total functions (only indices below 16 are written). -/
structure PlayState where
  armed : Bool
  recording : Bool
  playing : Bool
  start_time : Option Nat
  playback_start : Option Nat
  loop_duration : Nat
  paused_position : Option Nat
  events : List SeqEvent
  playback_cursor : Nat
  user_holding : Nat → Bool
  seq_holding : Nat → Bool
  is_restart_pressed : Bool
  is_erase_pressed : Bool

/-- `PlayMode::new`. -/
def PlayState.new : PlayState :=
  { armed := false, recording := false, playing := false, start_time := none,
    playback_start := none, loop_duration := 0, paused_position := none,
    events := [], playback_cursor := 0, user_holding := fun _ => false,
    seq_holding := fun _ => false, is_restart_pressed := false,
    is_erase_pressed := false }

/-- `PlayMode::update_pad_light`: user-held → White/Bright, else
sequencer-held → Orange/Normal, else off. -/
def updatePadLight (st : PlayState) (l : Lights) (i : Nat) : Lights :=
  if st.user_holding i then l.setPad i PadColors.White Brightness.Bright
  else if st.seq_holding i then l.setPad i PadColors.Orange Brightness.Normal
  else l.setPad i PadColors.Off Brightness.Off

/-- `PlayMode::update_transport_lights`. -/
def updateTransportLights (st : PlayState) (l : Lights) : Lights :=
  let l := if ¬ st.recording then
      (if st.armed then l.setButton .Rec .Bright else l.setButton .Rec .Dim)
    else l
  if st.loop_duration = 0 then
    ((((l.setButton .Play .Off).setButton .Stop .Off).setButton
      .Restart .Off).setButton .Erase .Off)
  else
    let l := if st.playing then l.setButton .Play .Bright else l.setButton .Play .Dim
    let l := if ¬ st.playing then l.setButton .Stop .Bright else l.setButton .Stop .Dim
    let l := if st.is_restart_pressed then l.setButton .Restart .Bright
             else l.setButton .Restart .Dim
    if st.is_erase_pressed then l.setButton .Erase .Bright else l.setButton .Erase .Dim

/-- `PlayMode::clear_all` (the Erase effect): full state reset, all pad
lights off, transport lights recomputed. -/
def clearAll (st : PlayState) (l : Lights) : PlayState × Lights :=
  let st' : PlayState :=
    { st with
      playing := false, recording := false, armed := false,
      start_time := none, playback_start := none, paused_position := none,
      loop_duration := 0, events := [], playback_cursor := 0,
      seq_holding := fun _ => false, user_holding := fun _ => false }
  let l' := (List.range 16).foldl (fun acc i => acc.setPad i PadColors.Off Brightness.Off) l
  (st', updateTransportLights st' l')

/-- The Resume re-seek loop (`play_mode.rs` lines 287–301): the cursor
lands on the first event whose offset is at or beyond the resume point,
or past the end if none is. -/
def reseekCursor (offset : Nat) : List SeqEvent → Nat
  | [] => 0
  | e :: rest =>
    if e.offset > offset then 0
    else if e.offset = offset then 0
    else 1 + reseekCursor offset rest

/-- Stable insertion of an event into an offset-sorted list (equal
offsets keep their existing order, the new event going last). -/
def insertEvent (a : SeqEvent) : List SeqEvent → List SeqEvent
  | [] => [a]
  | b :: t => if a.offset < b.offset then a :: b :: t else b :: insertEvent a t

/-- `events.sort_by(|a, b| a.offset.cmp(&b.offset))` — Rust's stable sort
by offset, as a stable insertion sort. -/
def sortEvents (l : List SeqEvent) : List SeqEvent :=
  l.foldl (fun acc a => insertEvent a acc) []

/-- The `HardwareEvent::Button` arm of `PlayMode::handle_event` (lines
218–344), followed by the unconditional `update_transport_lights`. -/
def playHandleButton (st : PlayState) (l : Lights) (button : Buttons)
    (pressed : Bool) (now : Nat) : PlayState × Lights :=
  let (st', l') :=
    match button with
    | .Rec =>
      if pressed then
        if st.recording then
          let st :=
            if st.loop_duration = 0 then
              let st :=
                match st.start_time with
                | some start => { st with loop_duration := now - start }
                | none => st
              { st with playback_start := some now }
            else st
          ({ st with recording := false, playing := true }, l)
        else if st.playing then ({ st with recording := true }, l)
        else if st.armed then ({ st with armed := false }, l)
        else ({ st with armed := true }, l)
      else (st, l)
    | .Play =>
      if pressed then
        if st.recording ∧ st.loop_duration = 0 then
          let st :=
            match st.start_time with
            | some start => { st with loop_duration := now - start }
            | none => st
          ({ st with
             recording := false, playing := true,
             playback_start := some now, paused_position := none }, l)
        else if st.playing then
          let st := { st with playing := false, recording := false }
          let st :=
            match st.playback_start with
            | some start =>
              let elapsed := now - start
              let pos := if st.loop_duration > 0 then elapsed % st.loop_duration else 0
              { st with paused_position := some pos }
            | none => st
          let st := { st with seq_holding := fun _ => false }
          let l := (List.range 16).foldl (fun acc i => updatePadLight st acc i) l
          (st, l)
        else if st.loop_duration > 0 then
          let offset := st.paused_position.getD 0
          ({ st with
             playing := true, playback_start := some (now - offset),
             playback_cursor := reseekCursor offset st.events }, l)
        else (st, l)
      else (st, l)
    | .Stop =>
      if pressed then
        let st := { st with
          playing := false, recording := false, armed := false,
          paused_position := some 0, playback_cursor := 0,
          seq_holding := fun _ => false }
        let l := (List.range 16).foldl (fun acc i => updatePadLight st acc i) l
        (st, l)
      else (st, l)
    | .Restart =>
      let st := { st with is_restart_pressed := pressed }
      if pressed then
        let st := if st.playing then
            { st with playback_start := some now, playback_cursor := 0 } else st
        let st := { st with paused_position := some 0 }
        let st := if ¬ st.playing then { st with playback_cursor := 0 } else st
        (st, l)
      else (st, l)
    | .Erase =>
      let st := { st with is_erase_pressed := pressed }
      if pressed then clearAll st l else (st, l)
    | _ => (st, l)
  (st', updateTransportLights st' l')

/-- The `HardwareEvent::Pad` arm of `PlayMode::handle_event` (lines
346–427): note lookup (`none` = out-of-bounds panic), user-hold
tracking, light, MIDI thru, arming→initial-recording, and event capture
with re-sort. -/
def playHandlePad (s : Settings) (st : PlayState) (l : Lights) (index : Nat)
    (event_type : PadEventType) (value : Nat) (now : Nat) :
    Option (PlayState × Lights × List MidiMessage) :=
  match s.notemaps.get? index with
  | none => none
  | some note =>
    let st :=
      if (event_type = .NoteOn ∨ event_type = .PressOn) ∧ value > 0 then
        { st with user_holding := updFn st.user_holding index true }
      else if event_type = .NoteOff ∨ event_type = .PressOff then
        { st with user_holding := updFn st.user_holding index false }
      else st
    let l := updatePadLight st l index
    let velocity := playModeVelocity value
    let midi_msg : Option MidiMessage :=
      match event_type with
      | .NoteOn | .PressOn => some (MidiMessage.NoteOn note velocity)
      | .NoteOff | .PressOff => some (MidiMessage.NoteOff note velocity)
      | _ => none
    match midi_msg with
    | none => some (st, l, [])
    | some msg =>
      let (st, l) :=
        if st.armed ∧ (event_type = .NoteOn ∨ event_type = .PressOn) ∧ value > 0 then
          let st := { st with
            armed := false, recording := true, events := [],
            start_time := some now, loop_duration := 0 }
          (st, updateTransportLights st l)
        else (st, l)
      let st :=
        if st.recording then
          let offset :=
            if st.loop_duration = 0 then
              match st.start_time with
              | some start => now - start
              | none => 0
            else
              match st.playback_start with
              | some start =>
                let raw := now - start
                if raw > st.loop_duration then raw - st.loop_duration else raw
              | none => 0
          let is_note_on := event_type = .NoteOn ∨ event_type = .PressOn
          if is_note_on ∨ (event_type = .NoteOff ∨ event_type = .PressOff) then
            { st with events :=
                sortEvents (st.events ++ [⟨offset, note, velocity,
                  decide (event_type = .NoteOn ∨ event_type = .PressOn)⟩]) }
          else st
        else st
      some (st, l, [msg])

/-- `PlayMode::handle_event` dispatch (encoder and slider events are
ignored: `_ => {}`). -/
def playHandleEvent (s : Settings) (st : PlayState) (l : Lights)
    (event : HardwareEvent) (now : Nat) :
    Option (PlayState × Lights × List MidiMessage) :=
  match event with
  | .Button index pressed =>
    let (st', l') := playHandleButton st l index pressed now
    some (st', l', [])
  | .Pad index event_type value => playHandlePad s st l index event_type value now
  | .Encoder _ => some (st, l, [])
  | .Slider _ => some (st, l, [])

/-- `PlayMode::tick` (lines 62–125).  `now` is the monotonic-clock
millisecond captured by `let now = Instant::now()` at the top of the
tick; `selfElapsedMs` is `now.elapsed().as_millis()` at the blink check —
the time the tick body itself has been running, which is 0 for any tick
executing in under a millisecond.  Returns state, lights, the MIDI
messages emitted in firing order, and the changed flag. -/
def playTick (s : Settings) (st : PlayState) (l : Lights) (now : Nat)
    (selfElapsedMs : Nat) : PlayState × Lights × List MidiMessage × Bool :=
  let (st, l, midi, changed) :=
    if st.playing ∧ st.loop_duration > 0 then
      let st := if st.playback_start = none then { st with playback_start := some now } else st
      let start := st.playback_start.getD now
      let elapsed := now - start
      let (st, elapsed) :=
        if elapsed ≥ st.loop_duration then
          ({ st with playback_start := some now, playback_cursor := 0 }, 0)
        else (st, elapsed)
      let fired := (st.events.drop st.playback_cursor).takeWhile (fun e => e.offset ≤ elapsed)
      let midi := fired.map (fun e =>
        if e.is_note_on then MidiMessage.NoteOn e.note e.velocity
        else MidiMessage.NoteOff e.note e.velocity)
      let (st, l, changed) := fired.foldl
        (fun (acc : PlayState × Lights × Bool) e =>
          let (st, l, ch) := acc
          match s.notemaps.findIdx? (fun n => n == e.note) with
          | some pad_index =>
            let st := { st with seq_holding := updFn st.seq_holding pad_index e.is_note_on }
            (st, updatePadLight st l pad_index, true)
          | none => (st, l, ch))
        (st, l, false)
      let st := { st with playback_cursor := st.playback_cursor + fired.length }
      (st, l, midi, changed)
    else (st, l, [], false)
  if st.recording then
    let blink_on := (selfElapsedMs / 500) % 2 = 0
    let brightness := if blink_on then Brightness.Bright else Brightness.Dim
    (st, l.setButton .Rec brightness, midi, true)
  else (st, l, midi, changed)

/-! ## Derived notions and example configuration -/

/-- An example externally-supplied configuration: the 16 pad notes 48–63
and two Toggle-mode buttons sharing exclusive group 1. -/
def exampleSettings : Settings :=
  { notemaps := [48, 49, 50, 51, 52, 53, 54, 55, 56, 57, 58, 59, 60, 61, 62, 63],
    button_configs := [("Events", ⟨.Toggle, some 1, none⟩),
                       ("Volume", ⟨.Toggle, some 1, none⟩)] }

/-- Folding a sequence of decoded button events through
`CustomMidiMode::process_button`, as the poll loop dispatches them. -/
def runButtons (hasLight : Buttons → Bool) (s : Settings) :
    CMState → Lights → List (Buttons × Bool) → CMState × Lights
  | st, l, [] => (st, l)
  | st, l, e :: rest =>
    let r := processButton hasLight s st l e.1 e.2
    runButtons hasLight s r.1 r.2.1 rest

/-- `b` and `b'` are both Toggle-configured and carry the same exclusive
group id (so they are members of one exclusive group). -/
def sameToggleGroup (s : Settings) (b b' : Buttons) : Bool :=
  match cfgLookup s (buttonName b), cfgLookup s (buttonName b') with
  | some c, some c' =>
    c.mode == ButtonMode.Toggle && c'.mode == ButtonMode.Toggle &&
      (match c.group_id, c'.group_id with
       | some g, some g' => g == g'
       | _, _ => false)
  | _, _ => false

/-- The spec's exclusive-group invariant: within any exclusive group, at
most one member's toggle state is true. -/
def groupToggleInvariant (s : Settings) (t : Buttons → Bool) : Prop :=
  ∀ b b' : Buttons, sameToggleGroup s b b' = true → t b = true → t b' = true → b = b'

instance (s : Settings) (t : Buttons → Bool) : Decidable (groupToggleInvariant s t) := by
  unfold groupToggleInvariant
  infer_instance

/-! ## Basic framebuffer lemmas -/

@[simp] theorem setButton_button (l : Lights) (b : Buttons) (v : Brightness) (x : Buttons) :
    (l.setButton b v).button x = if x = b then v else l.button x := rfl

@[simp] theorem setButton_pad (l : Lights) (b : Buttons) (v : Brightness) :
    (l.setButton b v).pad = l.pad := rfl

@[simp] theorem setButton_slider (l : Lights) (b : Buttons) (v : Brightness) :
    (l.setButton b v).slider = l.slider := rfl

@[simp] theorem setPad_pad (l : Lights) (i : Nat) (c : PadColors) (v : Brightness) (j : Nat) :
    (l.setPad i c v).pad j = if j = i then (c, v) else l.pad j := rfl

@[simp] theorem setPad_button (l : Lights) (i : Nat) (c : PadColors) (v : Brightness) :
    (l.setPad i c v).button = l.button := rfl

@[simp] theorem setSlider_slider (l : Lights) (i : Nat) (v : Brightness) (j : Nat) :
    (l.setSlider i v).slider j = if j = i then v else l.slider j := rfl

/-- `update_transport_lights` writes only button lights. -/
theorem updateTransportLights_pad (st : PlayState) (l : Lights) :
    (updateTransportLights st l).pad = l.pad := by
  unfold updateTransportLights
  split_ifs <;> rfl

theorem updatePadLight_pad_ne (st : PlayState) (l : Lights) (k i : Nat) (h : i ≠ k) :
    (updatePadLight st l k).pad i = l.pad i := by
  unfold updatePadLight
  split_ifs <;> simp [Lights.setPad, updFn, h]

theorem updatePadLight_pad_self (st : PlayState) (l : Lights) (i : Nat) :
    (updatePadLight st l i).pad i =
      (if st.user_holding i then (PadColors.White, Brightness.Bright)
       else if st.seq_holding i then (PadColors.Orange, Brightness.Normal)
       else (PadColors.Off, Brightness.Off)) := by
  unfold updatePadLight
  split_ifs <;> simp [Lights.setPad, updFn]

/-- The pad light after the `for i in 0..16` recompute loops of
`handle_event` (Pause/Stop): pointwise the priority rule of
`update_pad_light`. -/
theorem foldl_updatePadLight_pad (st : PlayState) (l : Lights) (n i : Nat) (hi : i < n) :
    (((List.range n).foldl (fun acc k => updatePadLight st acc k) l).pad i) =
      (if st.user_holding i then (PadColors.White, Brightness.Bright)
       else if st.seq_holding i then (PadColors.Orange, Brightness.Normal)
       else (PadColors.Off, Brightness.Off)) := by
  induction n generalizing l with
  | zero => omega
  | succ n ih =>
    rw [List.range_succ, List.foldl_append]
    simp only [List.foldl_cons, List.foldl_nil]
    rcases Nat.lt_succ_iff_lt_or_eq.mp hi with h | h
    · rw [updatePadLight_pad_ne _ _ _ _ (Nat.ne_of_lt h)]
      exact ih _ h
    · subst h
      exact updatePadLight_pad_self ..

/-- C9: pressing Stop from any looper state clears the `armed`,
`recording` and `playing` flags, sets `paused_position` to (`Some`) zero
and `playback_cursor` to 0, clears the sequencer-held overlay and the
sequencer-held pad lights, and leaves the recorded event list and
`loop_duration` (and `playback_start`) unchanged. -/
theorem stop_press_effect (st : PlayState) (l : Lights) (now : Nat) :
    ((playHandleButton st l .Stop true now).1.playing = false) ∧
    ((playHandleButton st l .Stop true now).1.recording = false) ∧
    ((playHandleButton st l .Stop true now).1.armed = false) ∧
    ((playHandleButton st l .Stop true now).1.paused_position = some 0) ∧
    ((playHandleButton st l .Stop true now).1.playback_cursor = 0) ∧
    ((playHandleButton st l .Stop true now).1.seq_holding = fun _ => false) ∧
    ((playHandleButton st l .Stop true now).1.events = st.events) ∧
    ((playHandleButton st l .Stop true now).1.loop_duration = st.loop_duration) ∧
    ((playHandleButton st l .Stop true now).1.user_holding = st.user_holding) ∧
    (∀ i, i < 16 → st.user_holding i = false →
      (playHandleButton st l .Stop true now).2.pad i = (PadColors.Off, Brightness.Off)) := by
  refine ⟨rfl, rfl, rfl, rfl, rfl, rfl, rfl, rfl, rfl, ?_⟩
  intro i hi hu
  show (updateTransportLights _ _).pad i = _
  rw [updateTransportLights_pad, foldl_updatePadLight_pad _ _ _ _ hi]
  simp [hu]

/-- Witness for `stop_press_effect` at a concrete state. -/
theorem stop_press_effect_witness :
    (playHandleButton PlayState.new Lights.init .Stop true 42).2.pad 3 =
      (PadColors.Off, Brightness.Off) :=
  (stop_press_effect PlayState.new Lights.init 42).2.2.2.2.2.2.2.2.2 3 (by decide) rfl

/-- C10: pressing Restart re-anchors `playback_start` to now while
playing (leaving it alone otherwise), sets `paused_position` to (`Some`)
zero and `playback_cursor` to 0 in every state, and modifies neither the
recorded events, nor `loop_duration`, nor the `armed`/`recording`/
`playing` flags; releasing Restart only records the released button state. -/
theorem restart_press_effect (st : PlayState) (l : Lights) (now : Nat) :
    ((playHandleButton st l .Restart true now).1.paused_position = some 0) ∧
    ((playHandleButton st l .Restart true now).1.playback_cursor = 0) ∧
    ((playHandleButton st l .Restart true now).1.playback_start =
      (if st.playing then some now else st.playback_start)) ∧
    ((playHandleButton st l .Restart true now).1.events = st.events) ∧
    ((playHandleButton st l .Restart true now).1.loop_duration = st.loop_duration) ∧
    ((playHandleButton st l .Restart true now).1.armed = st.armed) ∧
    ((playHandleButton st l .Restart true now).1.recording = st.recording) ∧
    ((playHandleButton st l .Restart true now).1.playing = st.playing) ∧
    ((playHandleButton st l .Restart false now).1 =
      { st with is_restart_pressed := false }) := by
  cases hp : st.playing <;>
    simp [playHandleButton, hp]

/-! ## The looper round trip (C1) -/

/-- Round-trip step 1: Rec pressed from Idle at t = 0 ms. -/
def looperStep0 : PlayState × Lights :=
  playHandleButton PlayState.new Lights.init .Rec true 0

/-- Round-trip step 2: pad 0 pressed (value 100) at t = 0 ms. -/
def looperStep1 : PlayState × Lights × List MidiMessage :=
  (playHandlePad exampleSettings looperStep0.1 looperStep0.2 0 .NoteOn 100 0).getD
    (PlayState.new, Lights.init, [])

/-- Round-trip step 3: pad 0 released at t = 100 ms. -/
def looperStep2 : PlayState × Lights × List MidiMessage :=
  (playHandlePad exampleSettings looperStep1.1 looperStep1.2.1 0 .NoteOff 0 100).getD
    (PlayState.new, Lights.init, [])

/-- Round-trip step 4: Rec pressed at t = 500 ms, ending initial
recording. -/
def looperStep3 : PlayState × Lights :=
  playHandleButton looperStep2.1 looperStep2.2.1 .Rec true 500

/-- Round-trip step 5: the first tick after recording ended, at
t = 501 ms. -/
def looperStep4 : PlayState × Lights × List MidiMessage × Bool :=
  playTick exampleSettings looperStep3.1 looperStep3.2 501 0

/-- Round-trip step 6: a later tick at t = 601 ms. -/
def looperStep5 : PlayState × Lights × List MidiMessage × Bool :=
  playTick exampleSettings looperStep4.1 looperStep4.2.1 601 0

/-- C1: the looper round trip.  From Idle, Rec arms; the pad press at
t = 0 starts initial recording (events cleared then the press captured,
`start_time = now`, `loop_duration = 0`); the release at t = 100 ms is
captured; Rec at t = 500 ms yields `loop_duration = 500` ms and the event
list `[(0 ms, note-on), (100 ms, note-off)]`, sorted ascending by offset;
the tick just after t = 500 ms fires the offset-0 note-on (and only it),
and the following tick fires the offset-100 note-off — the offset-0 event
replays before the offset-100 one. -/
theorem looper_round_trip :
    (looperStep0.1.armed = true ∧ looperStep0.1.recording = false ∧
      looperStep0.1.playing = false) ∧
    ((playHandlePad exampleSettings looperStep0.1 looperStep0.2 0 .NoteOn 100 0).isSome) ∧
    (looperStep1.1.recording = true ∧ looperStep1.1.armed = false ∧
      looperStep1.1.start_time = some 0 ∧ looperStep1.1.loop_duration = 0 ∧
      looperStep1.1.events = [⟨0, 48, 3, true⟩]) ∧
    ((playHandlePad exampleSettings looperStep1.1 looperStep1.2.1 0 .NoteOff 0 100).isSome) ∧
    (looperStep2.1.events = [⟨0, 48, 3, true⟩, ⟨100, 48, 0, false⟩] ∧
      List.Pairwise (fun a b : SeqEvent => a.offset ≤ b.offset) looperStep2.1.events) ∧
    (looperStep3.1.loop_duration = 500 ∧ looperStep3.1.playing = true ∧
      looperStep3.1.recording = false ∧ looperStep3.1.playback_start = some 500 ∧
      looperStep3.1.events = looperStep2.1.events) ∧
    (looperStep4.2.2.1 = [MidiMessage.NoteOn 48 3] ∧
      looperStep4.1.playback_cursor = 1) ∧
    (looperStep5.2.2.1 = [MidiMessage.NoteOff 48 0]) := by
  decide

/-! ## Decoder robustness (C3) -/

/-- C3: the decoder itself never faults — an unknown report type yields
`[]` and unknown kind nibbles are dropped — but a decodable pad record
with an out-of-range pad index (here 17, kind nibble 0x10 = note-on)
makes both the `main_loop` pad handling and
`CustomMidiMode::process_pad` index the 16-entry `notemaps` table out of
bounds (`none` = panic), contradicting the fault-free claim. -/
theorem decoder_pad_fault :
    (parseHidReport [0x02, 17, 0x10, 0x00] = [HardwareEvent.Pad 17 .NoteOn 0]) ∧
    (mainLoopPadRecord exampleSettings Lights.init 17 0x10 0x00 = none) ∧
    (processPad exampleSettings Lights.init 17 .NoteOn 0 = none) ∧
    (parseHidReport [0x09, 1, 2, 3] = []) ∧
    (parseHidReport [0x02, 0, 0x70, 0x00] = []) :=
  ⟨rfl, rfl, rfl, rfl, rfl⟩

/-! ## The recording blink (C7) -/

/-- A looper state that is recording (initial recording in progress). -/
def recordingState : PlayState := { PlayState.new with recording := true }

/-- C7: while recording, the tick computes the blink phase from
`now.elapsed()` — the time since the tick's own start, 0 for any
sub-millisecond tick body — so ticks at monotonic times 250 ms and
750 ms (adjacent 500 ms periods) both leave the record light `Bright`:
the light never blinks, and the "off" phase would be `Dim`, not off. -/
theorem record_blink_stuck :
    ((playTick exampleSettings recordingState Lights.init 250 0).2.1.button .Rec
      = Brightness.Bright) ∧
    ((playTick exampleSettings recordingState Lights.init 750 0).2.1.button .Rec
      = Brightness.Bright) := by
  decide

/-! ## Encoder direction (C4) -/

/-- The spec's "`diff = current - previous` as a signed 8-bit
difference", written independently of the code: centre
`current - previous` into `[-128, 127]` modulo 256. -/
def specSignedDiff (current previous : Nat) : Int :=
  (((current : Int) - (previous : Int) + 128) % 256) - 128

/-- C4 counterexample: for `previous = 250`, `current = 2` the signed
8-bit difference is 8, which the rule `0 < diff < 8 ∨ diff < -8`
classifies as counterclockwise: the code emits −1, not the +1 the claim
asserts. -/
theorem encoder_claim_counterexample :
    encoderDirection 2 250 = -1 ∧ specSignedDiff 2 250 = 8 ∧
    ((-1 : Int) ≠ 1) ∧
    ((processEncoder { CMState.init with last_encoder_val := 250 } 2).2 =
      [("/maschine/encoder", -1)]) := by
  decide

/-- C4 amended: the code's `diff` agrees with the spec's signed 8-bit
difference on all byte inputs, direction is `+1` exactly when
`0 < diff < 8` or `diff < -8`; `previous = 250, current = 2` gives `diff
= 8` hence −1 (not +1), and `previous = 10, current = 5` gives −1. -/
theorem encoder_direction_rule :
    (∀ current previous : Nat, current < 256 → previous < 256 →
      encoderDiff current previous = specSignedDiff current previous ∧
      (encoderDirection current previous = 1 ↔
        ((0 < specSignedDiff current previous ∧ specSignedDiff current previous < 8) ∨
          specSignedDiff current previous < -8))) ∧
    encoderDirection 2 250 = -1 ∧ encoderDirection 5 10 = -1 := by
  refine ⟨?_, by decide, by decide⟩
  intro c p hc hp
  have hd : encoderDiff c p = specSignedDiff c p := by
    unfold encoderDiff specSignedDiff
    dsimp only
    split_ifs with h <;> omega
  refine ⟨hd, ?_⟩
  unfold encoderDirection
  rw [hd]
  dsimp only
  split_ifs with h
  · simp [h]
  · simp [h]

/-! ## Pad velocity (C5) -/

/-- C5 counterexample: the looper's pad thru (`modes/play_mode.rs` line
364) does not clamp — a pad press with value 16 (> 0) emits a Note-On
with velocity 0, outside the claimed 1–127 range. -/
theorem velocity_claim_counterexample :
    ((playHandlePad exampleSettings PlayState.new Lights.init 0 .NoteOn 16 0).map
      (fun r => r.2.2) = some [MidiMessage.NoteOn 48 0]) ∧
    (0 < 16) ∧ ¬ (1 ≤ playModeVelocity 16) := by
  decide

/-- C5 amended: in the button-mapping mode (and the identical inline
`main_loop` pad handling) the velocity is `value >> 5` clamped to a
minimum of 1, hence in 1–127 for every decodable pad value (≤ 0xFFF);
`process_pad` puts exactly that velocity on the wire.  The looper mode is
excluded (see the counterexample). -/
theorem custom_midi_velocity_range :
    (∀ value : Nat, value < 4096 → 0 < value →
      1 ≤ customMidiVelocity value ∧ customMidiVelocity value ≤ 127) ∧
    (∀ (s : Settings) (l : Lights) (index value : Nat),
      (processPad s l index .NoteOn value).map (fun r => r.2.1) =
        (s.notemaps.get? index).map
          (fun note => [MidiMessage.NoteOn note (customMidiVelocity value)])) ∧
    (∀ (s : Settings) (l : Lights) (index value : Nat),
      (processPad s l index .NoteOff value).map (fun r => r.2.1) =
        (s.notemaps.get? index).map
          (fun note => [MidiMessage.NoteOff note (customMidiVelocity value)])) := by
  refine ⟨?_, ?_, ?_⟩
  · intro v h1 h2
    unfold customMidiVelocity
    simp only [Nat.shiftRight_eq_div_pow]
    constructor
    · split_ifs <;> omega
    · split_ifs <;> omega
  · intro s l i v
    unfold processPad
    cases hn : s.notemaps.get? i <;> simp [hn]
  · intro s l i v
    unfold processPad
    cases hn : s.notemaps.get? i <;> simp [hn]

/-- Witness for `custom_midi_velocity_range`. -/
theorem custom_midi_velocity_range_witness :
    1 ≤ customMidiVelocity 16 ∧ customMidiVelocity 16 ≤ 127 :=
  custom_midi_velocity_range.1 16 (by decide) (by decide)

/-! ## Slider bar (C8) -/

/-- The slider strip after `process_slider`, pointwise. -/
theorem processSlider_slider (val : Nat) (hv : val ≠ 0) (l : Lights) (i : Nat)
    (hi : i < 25) :
    (processSlider val l).1.slider i = sliderSegBrightness (sliderCnt val) i := by
  unfold processSlider
  rw [if_pos hv]
  dsimp only
  have key : ∀ (n : Nat) (l0 : Lights) (j : Nat), j < n →
      (((List.range n).foldl
        (fun acc k => acc.setSlider k (sliderSegBrightness (sliderCnt val) k)) l0).slider j)
        = sliderSegBrightness (sliderCnt val) j := by
    intro n
    induction n with
    | zero => intro l0 j hj; omega
    | succ n ih =>
      intro l0 j hj
      rw [List.range_succ, List.foldl_append]
      simp only [List.foldl_cons, List.foldl_nil, setSlider_slider]
      rcases Nat.lt_succ_iff_lt_or_eq.mp hj with h | h
      · rw [if_neg (Nat.ne_of_lt h)]
        exact ih l0 j h
      · subst h
        rw [if_pos rfl]
  exact key 25 l i hi

/-- C8 counterexample: at slider value 50 the code's segment is 5, and
the bar lights every segment below 5 `Dim` while segment 6 is `Off` — the
claim asserts segment 6 (`segment + 1`) is the one `Dim` segment and
segment 4 is `Off`. -/
theorem slider_claim_counterexample :
    sliderCnt 50 = 5 ∧
    ((processSlider 50 Lights.init).1.slider 4 = Brightness.Dim) ∧
    ((processSlider 50 Lights.init).1.slider 6 = Brightness.Off) ∧
    (Brightness.Dim ≠ Brightness.Off) := by
  decide

/-- C8 amended: for every nonzero slider value the raw value goes out
over OSC and, with `segment = (value - 1 + 5) * 25 / 200 - 1`, the
segment at `segment` is `Normal`, every segment **below** it is `Dim`,
and the rest are `Off` (for values in the device's 1–200 range). -/
theorem slider_bar_rendering :
    (∀ (val : Nat), val ≠ 0 → ∀ (l : Lights),
      (processSlider val l).2.1 = [(("/maschine/slider" : String), (val : Int))] ∧
      ∀ i, i < 25 →
        (processSlider val l).1.slider i = sliderSegBrightness (sliderCnt val) i) ∧
    (∀ val : Nat, 0 < val → val ≤ 200 → ∀ i : Nat, i < 25 →
      sliderSegBrightness (sliderCnt val) i =
        (if (i : Int) = sliderCnt val then Brightness.Normal
         else if (i : Int) < sliderCnt val then Brightness.Dim
         else Brightness.Off)) := by
  constructor
  · intro val hv l
    constructor
    · unfold processSlider
      rw [if_pos hv]
    · intro i hi
      exact processSlider_slider val hv l i hi
  · intro val h1 h2 i hi
    have hcnt : sliderCnt val ≤ 24 ∧ -1 ≤ sliderCnt val := by
      unfold sliderCnt
      omega
    unfold sliderSegBrightness
    split_ifs <;> first | rfl | omega

/-- Witness for `slider_bar_rendering`. -/
theorem slider_bar_rendering_witness :
    (processSlider 50 Lights.init).1.slider 3 = sliderSegBrightness (sliderCnt 50) 3 :=
  (slider_bar_rendering.1 50 (by decide) Lights.init).2 3 (by decide)

/-- Witness for `encoder_direction_rule`. -/
theorem encoder_direction_rule_witness :
    encoderDiff 2 250 = specSignedDiff 2 250 :=
  (encoder_direction_rule.1 2 250 (by decide) (by decide)).1

/-! ## Exclusive-group machinery (C2) -/

theorem updFn_apply {α β : Type} [DecidableEq α] (f : α → β) (a : α) (b : β) (x : α) :
    updFn f a b x = if x = a then b else f x := rfl

/-- The modelled `Debug` names are pairwise distinct. -/
theorem buttonName_inj : ∀ a b : Buttons, buttonName a = buttonName b → a = b := by
  decide

/-- `button_from_name` inverts the `Debug` name (the case-insensitive
scan finds exactly the named button). -/
theorem buttonFromName_name : ∀ b : Buttons, buttonFromName (buttonName b) = some b := by
  decide

/-- A configured Toggle button with group id `g` appears (by name) in the
group-`g` member list. -/
theorem mem_groupMembers_of_cfg (s : Settings) (n : String) (c : ButtonConfig) (g : Nat)
    (hc : cfgLookup s n = some c) (hm : c.mode = ButtonMode.Toggle)
    (hg : c.group_id = some g) : n ∈ groupMembers s g := by
  unfold cfgLookup at hc
  cases hf : s.button_configs.find? (fun p => p.1 == n) with
  | none => rw [hf] at hc; simp at hc
  | some p =>
    rw [hf] at hc
    simp only [Option.map] at hc
    rw [Option.some.injEq] at hc
    have hpn : p.1 = n := by
      have := List.find?_some hf
      simpa using this
    have hpmem : p ∈ s.button_configs := List.mem_of_find?_eq_some hf
    unfold groupMembers
    refine List.mem_filterMap.mpr ⟨p, hpmem, ?_⟩
    rw [hc, if_pos ⟨hm, hg⟩, hpn]

/-- The exclusion cascade never turns a toggle on. -/
theorem forceSiblings_toggle_le (bn : String) (names : List String) (st : CMState)
    (l : Lights) (x : Buttons)
    (hx : (forceSiblings bn names st l).1.toggle_states x = true) :
    st.toggle_states x = true := by
  induction names generalizing st l with
  | nil => exact hx
  | cons n rest ih =>
    unfold forceSiblings at hx
    by_cases hn : n ≠ bn
    · rw [if_pos hn] at hx
      cases hbf : buttonFromName n with
      | some ob =>
        rw [hbf] at hx
        dsimp only at hx
        have h1 := ih _ _ hx
        have h2 : updFn st.toggle_states ob false x = true := h1
        rw [updFn_apply] at h2
        by_cases hxo : x = ob
        · rw [if_pos hxo] at h2; exact absurd h2 (by simp)
        · rwa [if_neg hxo] at h2
      | none =>
        rw [hbf] at hx
        exact ih _ _ hx
    · rw [if_neg hn] at hx
      exact ih _ _ hx

/-- The exclusion cascade forces every listed sibling's toggle off. -/
theorem forceSiblings_forces (bn : String) (names : List String) (st : CMState)
    (l : Lights) (n : String) (x : Buttons) (hmem : n ∈ names) (hne : n ≠ bn)
    (hbf : buttonFromName n = some x) :
    (forceSiblings bn names st l).1.toggle_states x = false := by
  induction names generalizing st l with
  | nil => exact absurd hmem (List.not_mem_nil n)
  | cons m rest ih =>
    rcases List.mem_cons.mp hmem with hm | hm
    · subst hm
      unfold forceSiblings
      rw [if_pos hne, hbf]
      dsimp only
      cases hval : (forceSiblings bn rest
          { st with toggle_states := updFn st.toggle_states x false }
          (l.setButton x Brightness.Off)).1.toggle_states x
      · rfl
      · have h1 := forceSiblings_toggle_le _ _ _ _ _ hval
        have h2 : updFn st.toggle_states x false x = true := h1
        rw [updFn_apply, if_pos rfl] at h2
        exact absurd h2 (by simp)
    · unfold forceSiblings
      by_cases hmn : m ≠ bn
      · rw [if_pos hmn]
        cases hbm : buttonFromName m with
        | some ob =>
          dsimp only
          exact ih _ _ hm
        | none => exact ih _ _ hm
      · rw [if_neg hmn]
        exact ih _ _ hm

/-- The invariant only gets easier when toggles only turn off. -/
theorem groupToggleInvariant_mono (s : Settings) (t t' : Buttons → Bool)
    (h : groupToggleInvariant s t) (hle : ∀ x, t' x = true → t x = true) :
    groupToggleInvariant s t' :=
  fun x y hs hx hy => h x y hs (hle x hx) (hle y hy)

/-- Unpacking `sameToggleGroup`. -/
theorem sameToggleGroup_spec (s : Settings) (b b' : Buttons)
    (h : sameToggleGroup s b b' = true) :
    ∃ c c' g, cfgLookup s (buttonName b) = some c ∧
      cfgLookup s (buttonName b') = some c' ∧
      c.mode = ButtonMode.Toggle ∧ c'.mode = ButtonMode.Toggle ∧
      c.group_id = some g ∧ c'.group_id = some g := by
  unfold sameToggleGroup at h
  cases h1 : cfgLookup s (buttonName b) with
  | none => rw [h1] at h; simp at h
  | some c =>
    cases h2 : cfgLookup s (buttonName b') with
    | none => rw [h1, h2] at h; simp at h
    | some c' =>
      rw [h1, h2] at h
      simp only [Bool.and_eq_true, beq_iff_eq] at h
      obtain ⟨⟨hm, hm'⟩, hg⟩ := h
      cases hgc : c.group_id with
      | none => rw [hgc] at hg; cases c'.group_id <;> simp at hg
      | some g =>
        cases hgc' : c'.group_id with
        | none => rw [hgc, hgc'] at hg; simp at hg
        | some g' =>
          rw [hgc, hgc'] at hg
          simp only [beq_iff_eq] at hg
          refine ⟨c, c', g, rfl, rfl, hm, hm', hgc, ?_⟩
          rw [hg]
          exact hgc'

/-- The Toggle press branch preserves the exclusive-group invariant: a
toggle turning on forces every other member of its group off first. -/
theorem togglePress_inv (s : Settings) (st : CMState) (l : Lights) (b : Buttons)
    (p : Bool) (h : groupToggleInvariant s st.toggle_states) :
    groupToggleInvariant s
      (togglePress s st l b (buttonName b) (cfgLookup s (buttonName b)) p).st.toggle_states := by
  unfold togglePress
  split_ifs with hguard
  case neg => exact h
  case pos =>
    cases hts : st.toggle_states b with
    | true =>
      simp only [hts, Bool.not_true, Bool.false_eq_true, if_false]
      refine groupToggleInvariant_mono s st.toggle_states _ h ?_
      intro x hx
      have hx' : updFn st.toggle_states b false x = true := hx
      rw [updFn_apply] at hx'
      by_cases hxb : x = b
      · rw [if_pos hxb] at hx'; exact absurd hx' (by simp)
      · rwa [if_neg hxb] at hx'
    | false =>
      simp only [hts, Bool.not_false, eq_self_iff_true, if_true]
      cases hcfg : cfgLookup s (buttonName b) with
      | none =>
        simp only [hcfg, Option.bind]
        intro x y hs hx hy
        by_cases hxb : x = b <;> by_cases hyb : y = b
        · rw [hxb, hyb]
        · obtain ⟨c1, c', g, hc1, _, _, _, _, _⟩ := sameToggleGroup_spec s x y hs
          rw [hxb, hcfg] at hc1; exact absurd hc1 (by simp)
        · obtain ⟨c1, c', g, _, hc2, _, _, _, _⟩ := sameToggleGroup_spec s x y hs
          rw [hyb, hcfg] at hc2; exact absurd hc2 (by simp)
        · have hx' : updFn st.toggle_states b true x = true := hx
          have hy' : updFn st.toggle_states b true y = true := hy
          rw [updFn_apply, if_neg hxb] at hx'
          rw [updFn_apply, if_neg hyb] at hy'
          exact h x y hs hx' hy'
      | some c =>
        simp only [hcfg, Option.bind]
        cases hgid : c.group_id with
        | none =>
          simp only [hgid]
          intro x y hs hx hy
          by_cases hxb : x = b <;> by_cases hyb : y = b
          · rw [hxb, hyb]
          · obtain ⟨c1, c', g, hc1, _, _, _, hg1, _⟩ := sameToggleGroup_spec s x y hs
            rw [hxb, hcfg, Option.some.injEq] at hc1
            rw [← hc1, hgid] at hg1
            exact absurd hg1 (by simp)
          · obtain ⟨c1, c', g, _, hc2, _, _, _, hg2⟩ := sameToggleGroup_spec s x y hs
            rw [hyb, hcfg, Option.some.injEq] at hc2
            rw [← hc2, hgid] at hg2
            exact absurd hg2 (by simp)
          · have hx' : updFn st.toggle_states b true x = true := hx
            have hy' : updFn st.toggle_states b true y = true := hy
            rw [updFn_apply, if_neg hxb] at hx'
            rw [updFn_apply, if_neg hyb] at hy'
            exact h x y hs hx' hy'
        | some gid =>
          simp only [hgid]
          intro x y hs hx hy
          by_cases hxb : x = b <;> by_cases hyb : y = b
          · rw [hxb, hyb]
          · obtain ⟨c1, c', g, hc1, hcy, _, hmy, hg1, hgy⟩ := sameToggleGroup_spec s x y hs
            rw [hxb, hcfg, Option.some.injEq] at hc1
            rw [← hc1, hgid, Option.some.injEq] at hg1
            have hyname : buttonName y ∈ groupMembers s gid := by
              rw [← hg1] at hgy
              exact mem_groupMembers_of_cfg s (buttonName y) c' gid hcy hmy hgy
            have hynb : buttonName y ≠ buttonName b :=
              fun hh => hyb (buttonName_inj _ _ hh)
            have hforced := forceSiblings_forces (buttonName b) (groupMembers s gid)
              st l (buttonName y) y hyname hynb (buttonFromName_name y)
            have hy' : updFn (forceSiblings (buttonName b) (groupMembers s gid)
                st l).1.toggle_states b true y = true := hy
            rw [updFn_apply, if_neg hyb, hforced] at hy'
            exact absurd hy' (by simp)
          · obtain ⟨c1, c', g, hcx, hc2, hmx, _, hg1, hg2⟩ := sameToggleGroup_spec s x y hs
            rw [hyb, hcfg, Option.some.injEq] at hc2
            rw [← hc2, hgid, Option.some.injEq] at hg2
            have hxname : buttonName x ∈ groupMembers s gid := by
              rw [← hg2] at hg1
              exact mem_groupMembers_of_cfg s (buttonName x) c1 gid hcx hmx hg1
            have hxnb : buttonName x ≠ buttonName b :=
              fun hh => hxb (buttonName_inj _ _ hh)
            have hforced := forceSiblings_forces (buttonName b) (groupMembers s gid)
              st l (buttonName x) x hxname hxnb (buttonFromName_name x)
            have hx' : updFn (forceSiblings (buttonName b) (groupMembers s gid)
                st l).1.toggle_states b true x = true := hx
            rw [updFn_apply, if_neg hxb, hforced] at hx'
            exact absurd hx' (by simp)
          · have hx' : updFn (forceSiblings (buttonName b) (groupMembers s gid)
                st l).1.toggle_states b true x = true := hx
            have hy' : updFn (forceSiblings (buttonName b) (groupMembers s gid)
                st l).1.toggle_states b true y = true := hy
            rw [updFn_apply, if_neg hxb] at hx'
            rw [updFn_apply, if_neg hyb] at hy'
            exact h x y hs (forceSiblings_toggle_le _ _ _ _ _ hx')
              (forceSiblings_toggle_le _ _ _ _ _ hy')

/-- One handled button event preserves the exclusive-group invariant. -/
theorem processButton_inv (hL : Buttons → Bool) (s : Settings) (st : CMState)
    (l : Lights) (b : Buttons) (p : Bool)
    (h : groupToggleInvariant s st.toggle_states) :
    groupToggleInvariant s (processButton hL s st l b p).1.toggle_states := by
  unfold processButton
  by_cases hb : b = Buttons.EncoderPress
  · rw [if_pos hb]
    split_ifs <;> exact h
  · rw [if_neg hb]
    dsimp only
    split
    · split_ifs <;> exact h
    · exact togglePress_inv s st l b p h

/-- The inline `main_loop` button handling preserves the invariant too
(its Toggle press path is the same `togglePress`; it differs from
`process_button` only in the release-light brightness, which does not
touch toggle state). -/
theorem mainLoopProcessButton_inv (hL : Buttons → Bool) (s : Settings) (st : CMState)
    (l : Lights) (b : Buttons) (p : Bool)
    (h : groupToggleInvariant s st.toggle_states) :
    groupToggleInvariant s (mainLoopProcessButton hL s st l b p).1.toggle_states := by
  unfold mainLoopProcessButton
  by_cases hb : b = Buttons.EncoderPress
  · rw [if_pos hb]
    split_ifs <;> exact h
  · rw [if_neg hb]
    dsimp only
    split
    · split_ifs <;> exact h
    · exact togglePress_inv s st l b p h

/-- Folding a sequence of decoded button events through the inline
`main_loop` button handling. -/
def runButtonsMain (hL : Buttons → Bool) (s : Settings) :
    CMState → Lights → List (Buttons × Bool) → CMState × Lights
  | st, l, [] => (st, l)
  | st, l, e :: rest =>
    let r := mainLoopProcessButton hL s st l e.1 e.2
    runButtonsMain hL s r.1 r.2.1 rest

/-- Any sequence of events through the inline `main_loop` handling
preserves the invariant. -/
theorem runButtonsMain_inv (hL : Buttons → Bool) (s : Settings) (st : CMState)
    (l : Lights) (evs : List (Buttons × Bool))
    (h : groupToggleInvariant s st.toggle_states) :
    groupToggleInvariant s (runButtonsMain hL s st l evs).1.toggle_states := by
  induction evs generalizing st l with
  | nil => exact h
  | cons e rest ih =>
    unfold runButtonsMain
    exact ih _ _ (mainLoopProcessButton_inv hL s st l e.1 e.2 h)

/-- Any sequence of handled button events preserves the invariant. -/
theorem runButtons_inv (hL : Buttons → Bool) (s : Settings) (st : CMState)
    (l : Lights) (evs : List (Buttons × Bool))
    (h : groupToggleInvariant s st.toggle_states) :
    groupToggleInvariant s (runButtons hL s st l evs).1.toggle_states := by
  induction evs generalizing st l with
  | nil => exact h
  | cons e rest ih =>
    unfold runButtons
    exact ih _ _ (processButton_inv hL s st l e.1 e.2 h)

/-- C2 scenario, step 1: press button A (= `Events`, Toggle, group 1) on
a fresh mode state with all lights off and every button lit-capable. -/
def c2Step1 : CMState × Lights × List OscMsg × List MidiMessage × Bool :=
  processButton (fun _ => true) exampleSettings CMState.init Lights.init .Events true

/-- C2 scenario, step 2: release A. -/
def c2Step2 : CMState × Lights × List OscMsg × List MidiMessage × Bool :=
  processButton (fun _ => true) exampleSettings c2Step1.1 c2Step1.2.1 .Events false

/-- C2 scenario, step 3: press button B (= `Volume`, Toggle, group 1). -/
def c2Step3 : CMState × Lights × List OscMsg × List MidiMessage × Bool :=
  processButton (fun _ => true) exampleSettings c2Step2.1 c2Step2.2.1 .Volume true

/-- C2 scenario, step 4: release B. -/
def c2Step4 : CMState × Lights × List OscMsg × List MidiMessage × Bool :=
  processButton (fun _ => true) exampleSettings c2Step3.1 c2Step3.2.1 .Volume false

/-- C2: any sequence of handled button events — through
`CustomMidiMode::process_button` or through the inline `main_loop`
handling — preserves "at most one member of each exclusive group is
toggled on"; and in the concrete press-A-then-press-B scenario (both in
group 1), A ends toggled off with its light off, B ends toggled on with
its light on, and pressing B emitted an OSC 0 for the forced-off sibling
A (alongside B's own OSC 1). -/
theorem toggle_group_exclusivity :
    (∀ (hL : Buttons → Bool) (s : Settings) (st : CMState) (l : Lights)
        (evs : List (Buttons × Bool)),
      groupToggleInvariant s st.toggle_states →
      groupToggleInvariant s (runButtons hL s st l evs).1.toggle_states) ∧
    (∀ (hL : Buttons → Bool) (s : Settings) (st : CMState) (l : Lights)
        (evs : List (Buttons × Bool)),
      groupToggleInvariant s st.toggle_states →
      groupToggleInvariant s (runButtonsMain hL s st l evs).1.toggle_states) ∧
    (c2Step4.1.toggle_states .Events = false ∧
     c2Step4.1.toggle_states .Volume = true ∧
     c2Step4.2.1.button .Events = Brightness.Off ∧
     c2Step4.2.1.button .Volume ≠ Brightness.Off ∧
     (("/maschine/events", (0 : Int)) ∈ c2Step3.2.2.1) ∧
     (("/maschine/volume", (1 : Int)) ∈ c2Step3.2.2.1)) :=
  ⟨runButtons_inv, runButtonsMain_inv, by decide⟩

/-- Witness for `toggle_group_exclusivity` at the concrete configuration
and event sequence. -/
theorem toggle_group_exclusivity_witness :
    groupToggleInvariant exampleSettings
      (runButtons (fun _ => true) exampleSettings CMState.init Lights.init
        [(.Events, true), (.Events, false), (.Volume, true)]).1.toggle_states :=
  toggle_group_exclusivity.1 (fun _ => true) exampleSettings CMState.init Lights.init
    [(.Events, true), (.Events, false), (.Volume, true)] (by decide)

/-! ## Toggle release light (C6) -/

/-- A mode state remembering `Events` toggled on. -/
def toggledOnState : CMState :=
  { CMState.init with toggle_states := updFn CMState.init.toggle_states .Events true }

/-- Lights with the `Events` button at maximum brightness. -/
def brightEventsLights : Lights := Lights.init.setButton .Events Brightness.Bright

/-- C6 counterexample: releasing a Toggle button whose remembered toggle
is on, `CustomMidiMode::process_button` restores `Bright` but the inline
`main_loop` handling restores `Dim` — the two are not equivalent, and
`main_loop` does not implement the max-brightness rule. -/
theorem toggle_release_equiv_counterexample :
    ((processButton (fun _ => true) exampleSettings toggledOnState brightEventsLights
        .Events false).2.1.button .Events = Brightness.Bright) ∧
    ((mainLoopProcessButton (fun _ => true) exampleSettings toggledOnState brightEventsLights
        .Events false).2.1.button .Events = Brightness.Dim) ∧
    (Brightness.Dim ≠ Brightness.Bright) := by
  decide

/-- C6 amended: for a Toggle-configured, lit-capable button released
while its light is on, `process_button` sets the light to `Bright` if the
remembered toggle is true and `Off` otherwise, while the inline
`main_loop` handling sets `Dim` instead of `Bright`; the two handlers
agree (entirely) exactly in the toggle-off case. -/
theorem toggle_release_light_rule :
    ∀ (hL : Buttons → Bool) (s : Settings) (st : CMState) (l : Lights) (b : Buttons),
      b ≠ Buttons.EncoderPress →
      ((cfgLookup s (buttonName b)).map (·.mode)).getD ButtonMode.Trigger
        = ButtonMode.Toggle →
      l.button b ≠ Brightness.Off →
      hL b = true →
      ((processButton hL s st l b false).2.1.button b =
        (if st.toggle_states b then Brightness.Bright else Brightness.Off)) ∧
      ((mainLoopProcessButton hL s st l b false).2.1.button b =
        (if st.toggle_states b then Brightness.Dim else Brightness.Off)) ∧
      (st.toggle_states b = false →
        processButton hL s st l b false = mainLoopProcessButton hL s st l b false) := by
  intro hL s st l b hb hmode hlight hhl
  refine ⟨?_, ?_, ?_⟩
  · unfold processButton
    rw [if_neg hb]
    dsimp only
    rw [hmode]
    dsimp only
    unfold togglePress
    rw [if_neg (by simp)]
    dsimp only
    rw [if_pos ⟨by simp, hlight⟩]
    unfold assembleButton
    dsimp only
    rw [if_pos hhl]
    simp
  · unfold mainLoopProcessButton
    rw [if_neg hb]
    dsimp only
    rw [hmode]
    dsimp only
    unfold togglePress
    rw [if_neg (by simp)]
    dsimp only
    rw [if_pos ⟨by simp, hlight⟩]
    unfold assembleButton
    dsimp only
    rw [if_pos hhl]
    simp
  · intro ht
    unfold processButton mainLoopProcessButton
    rw [if_neg hb, if_neg hb]
    dsimp only
    rw [hmode]
    dsimp only
    unfold togglePress
    rw [if_neg (by simp)]
    dsimp only
    rw [ht]
    simp [hlight]

/-- Witness for `toggle_release_light_rule`. -/
theorem toggle_release_light_rule_witness :
    (processButton (fun _ => true) exampleSettings toggledOnState brightEventsLights
      .Events false).2.1.button .Events =
      (if toggledOnState.toggle_states .Events then Brightness.Bright
       else Brightness.Off) :=
  (toggle_release_light_rule (fun _ => true) exampleSettings toggledOnState
    brightEventsLights .Events (by decide) (by decide) (by decide) rfl).1

end Maschinette
